import Mathlib

/-!
Shallow embedding of the ClipABit plugin installer (installer-script.py).

The script is a linear pipeline of gates:
check_platform → check_davinci_resolve → check_python_installation →
check_pip_installation → install_dependencies → copy_plugin_files →
verify_installation, driven by main.

External state (operating system identity, environment variables,
filesystem existence, subprocess exit statuses, manifest parse results)
is captured in a `World` record; each script function is embedded as a
function of the world.  Fallible Python calls are embedded with
`Except PyError`: an `.error` value is an uncaught Python exception
propagating out of the embedded function.  Side effects that matter to
the claims (filesystem mutations, pip invocations, the final contents of
the plugin target directory) are returned explicitly in the results.
-/

namespace Installer

/-- Operating system identity as reported by platform.system(). -/
inductive Platform where
  | darwin
  | windows
  | other (name : String)
  deriving DecidableEq, Repr

/-- An uncaught Python exception.  `typeError` stands for the TypeError
raised by Path(None); `generic` stands for any other exception. -/
inductive PyError where
  | typeError
  | generic
  deriving DecidableEq, Repr

/-- Outcome of attempting to parse pyproject.toml once the file exists and
a TOML parser is available: either tomllib.load (or the file read) raises,
or it yields the project.dependencies list (possibly empty, via the
data.get("project", \x7b\x7d).get("dependencies", []) defaults). -/
inductive ParseOutcome where
  | raises
  | ok (deps : List String)
  deriving DecidableEq, Repr

/-- State of the manifest file frontend/plugin/pyproject.toml as the
script observes it. -/
structure ManifestState where
  fileExists : Bool
  tomllibAvailable : Bool
  parse : ParseOutcome
  deriving DecidableEq, Repr

/-- A directory tree, as an association of relative file names to
contents.  The plugin payload is opaque to the installer, so this level
of abstraction matches what shutil.copytree / shutil.rmtree act on. -/
structure Tree where
  files : List (String × String)
  deriving DecidableEq, Repr

/-- Does the tree contain the entry-point file clipabit.py at top level? -/
def treeHasEntry (t : Tree) : Bool :=
  t.files.any (fun f => f.1 = "clipabit.py")

/-- Filesystem mutations the script can perform, in the order they are
issued.  An entry records that the corresponding call was made. -/
inductive Mutation where
  | ensurepip
  | pipInstall (dep : String)
  | mkdirParents
  | rmtreeTarget
  | copyTree
  | chmodEntry
  deriving DecidableEq, Repr

/-- The external state of one installer run: OS identity, environment
variables, filesystem existence, subprocess behaviour, manifest state,
and the shape of the deployment source/target. -/
structure World where
  platform : Platform
  home : String
  appdata : Option String
  programdata : Option String
  /-- Paths that exist on the filesystem (os.path.exists / Path.exists). -/
  existingPaths : List String
  /-- python3 --version and which python3 both succeed. -/
  python3Ok : Bool
  /-- The spawned version check sys.version_info >= (3, 8) exits 0. -/
  versionGe38 : Bool
  /-- python3 -m pip --version exits 0. -/
  pipPresent : Bool
  /-- python3 -m ensurepip --default-pip exits 0. -/
  ensurepipOk : Bool
  manifest : ManifestState
  /-- Whether python3 -m pip install --upgrade dep exits 0, per dep. -/
  pipInstallOk : String → Bool
  /-- frontend/plugin (the plugin source directory) exists. -/
  sourceExists : Bool
  sourceTree : Tree
  /-- Contents at plugin_target before the run; none when no prior
  installation exists there. -/
  priorTarget : Option Tree
  mkdirRaises : Bool
  rmtreeRaises : Bool
  /-- Residual contents at the target after a failed rmtree. -/
  rmtreeResidue : Option Tree
  copyRaises : Bool
  /-- Residual contents at the target after a failed copytree. -/
  copyResidue : Option Tree
  /-- os.chmod on the deployed entry-point file raises. -/
  chmodRaises : Bool
  /-- python3 -c "import PyQt6, requests, watchdog" exits 0. -/
  importOk : Bool

/-- Existence test against the recorded filesystem state. -/
def pathExists (w : World) (p : String) : Bool :=
  w.existingPaths.contains p

/-- Line 64: platform.system() == "Darwin" or == "Windows" is accepted,
anything else is rejected. -/
def check_platform (p : Platform) : Bool :=
  match p with
  | .darwin => true
  | .windows => true
  | .other _ => false

/-- Lines 83-86: candidate DaVinci Resolve install locations on macOS. -/
def macResolvePaths : List String :=
  ["/Applications/DaVinci Resolve/DaVinci Resolve.app",
   "/Applications/DaVinci Resolve Studio/DaVinci Resolve Studio.app"]

/-- Lines 88-91: candidate DaVinci Resolve install locations on Windows. -/
def winResolvePaths : List String :=
  ["C:\\Program Files\\Blackmagic Design\\DaVinci Resolve\\Resolve.exe",
   "C:\\Program Files\\Blackmagic Design\\DaVinci Resolve Studio\\Resolve.exe"]

/-- Lines 76-103: check_davinci_resolve returns true iff one of the fixed
platform-specific candidate paths exists. -/
def check_davinci_resolve (w : World) : Bool :=
  match w.platform with
  | .darwin => macResolvePaths.any (pathExists w)
  | .windows => winResolvePaths.any (pathExists w)
  | .other _ => false

/-- Lines 106-146: python3 --version and which python3 must succeed
(a CalledProcessError or FileNotFoundError is caught and yields false),
then the version probe must report at least 3.8. -/
def check_python_installation (w : World) : Bool :=
  if !w.python3Ok then false
  else if !w.versionGe38 then false
  else true

/-- Lines 149-174: pip present succeeds directly; otherwise one
self-heal attempt via ensurepip, whose invocation is a mutation, and
whose failure yields false. -/
def check_pip_installation (w : World) : Bool × List Mutation :=
  if w.pipPresent then (true, [])
  else if w.ensurepipOk then (true, [.ensurepip])
  else (false, [.ensurepip])

/-- Lines 185-216: the hardcoded fallback dependency list. -/
def fallbackDependencies : List String :=
  ["pyqt6>=6.10.0", "requests>=2.31.0", "watchdog>=3.0.0"]

/-- Lines 177-216: read dependencies from pyproject.toml.  Missing file,
missing TOML parser, or a parse exception each yield the fallback list;
a successful parse yields the declared list if non-empty and the empty
list otherwise. -/
def get_dependencies_from_pyproject (m : ManifestState) : List String :=
  if !m.fileExists then fallbackDependencies
  else if !m.tomllibAvailable then fallbackDependencies
  else
    match m.parse with
    | .raises => fallbackDependencies
    | .ok deps => if !deps.isEmpty then deps else []

/-- Result of install_dependencies: overall success, the dependencies for
which a pip install subprocess was invoked (in order), and those whose
install exited 0. -/
structure InstallOutcome where
  ok : Bool
  attempted : List String
  installed : List String
  deriving DecidableEq, Repr

/-- Lines 228-240: the install loop.  Each dependency in turn gets a
pip install invocation; the first non-zero exit stops the loop and the
whole call returns false.  Already-installed dependencies are untouched. -/
def installLoop (f : String → Bool) : List String → InstallOutcome
  | [] => ⟨true, [], []⟩
  | d :: rest =>
    if f d then
      let r := installLoop f rest
      ⟨r.ok, d :: r.attempted, d :: r.installed⟩
    else
      ⟨false, [d], []⟩

/-- Lines 218-243: resolve the dependency list, succeed trivially when it
is empty, otherwise run the install loop. -/
def install_dependencies (w : World) : InstallOutcome :=
  let dependencies := get_dependencies_from_pyproject w.manifest
  if dependencies.isEmpty then ⟨true, [], []⟩
  else installLoop w.pipInstallOk dependencies

/-- Line 252: the macOS user-scope plugin directory. -/
def macUserPluginDir (home : String) : String :=
  home ++ "/Library/Application Support/Blackmagic Design/DaVinci Resolve/Fusion/Scripts/Utility"

/-- Line 253: the macOS system-scope plugin directory. -/
def macSystemPluginDir : String :=
  "/Library/Application Support/Blackmagic Design/DaVinci Resolve/Fusion/Scripts/Utility"

/-- Line 258: the Windows user-scope plugin directory under %APPDATA%. -/
def winUserPluginDir (appdata : String) : String :=
  appdata ++ "/Blackmagic Design/DaVinci Resolve/Support/Fusion/Scripts/Utility"

/-- Line 259: the Windows system-scope plugin directory under
%PROGRAMDATA%. -/
def winSystemPluginDir (programdata : String) : String :=
  programdata ++ "/Blackmagic Design/DaVinci Resolve/Fusion/Scripts/Utility"

/-- Lines 263-267: prefer the user directory; fall through to the system
directory only when the user directory is absent and the system one
exists. -/
def choosePluginDir (w : World) (user system : String) : String :=
  if pathExists w user || !pathExists w system then user else system

/-- Lines 246-267: resolve the plugin directory for the current platform.
On Windows, Path(os.getenv("APPDATA")) raises TypeError when the
variable is unset (line 258 runs before line 259, so APPDATA is checked
first); the function itself has no exception handler. -/
def get_resolve_plugin_directory (w : World) : Except PyError String :=
  match w.platform with
  | .darwin =>
    .ok (choosePluginDir w (macUserPluginDir w.home) macSystemPluginDir)
  | .windows =>
    match w.appdata with
    | none => .error .typeError
    | some a =>
      match w.programdata with
      | none => .error .typeError
      | some p =>
        .ok (choosePluginDir w (winUserPluginDir a) (winSystemPluginDir p))
  | .other _ => .ok (w.home ++ "/ClipABit")

/-- Result of copy_plugin_files: the returned boolean, or `.error` when
an exception escapes the function; the mutations performed; and the final
contents at the plugin_target directory. -/
structure DeployOutcome where
  ret : Except PyError Bool
  mutations : List Mutation
  target : Option Tree
  deriving Repr

/-- Lines 307-321: the copy phase of copy_plugin_files, entered with the
target absent.  copytree either raises (caught, returns false, leaving a
residue) or materialises the source tree at the target; then, when the
copied tree contains clipabit.py, os.chmod is attempted inside the same
try block, so a chmod exception is also caught and converted to a false
return. -/
def copyPhase (w : World) (muts : List Mutation) : DeployOutcome :=
  if w.copyRaises then
    ⟨.ok false, muts ++ [.copyTree], w.copyResidue⟩
  else if treeHasEntry w.sourceTree then
    if w.chmodRaises then
      ⟨.ok false, muts ++ [.copyTree], some w.sourceTree⟩
    else
      ⟨.ok true, muts ++ [.copyTree, .chmodEntry], some w.sourceTree⟩
  else
    ⟨.ok true, muts ++ [.copyTree], some w.sourceTree⟩

/-- Lines 270-321: copy_plugin_files.  The source-existence check and the
target resolution (line 283) sit outside every try block, so a
resolution exception propagates out.  mkdir, rmtree of a prior
installation, and the copy phase each convert their own exceptions to a
false return. -/
def copy_plugin_files (w : World) : DeployOutcome :=
  if !w.sourceExists then ⟨.ok false, [], w.priorTarget⟩
  else
    match get_resolve_plugin_directory w with
    | .error e => ⟨.error e, [], w.priorTarget⟩
    | .ok _ =>
      if w.mkdirRaises then ⟨.ok false, [.mkdirParents], w.priorTarget⟩
      else
        match w.priorTarget with
        | some _ =>
          if w.rmtreeRaises then
            ⟨.ok false, [.mkdirParents, .rmtreeTarget], w.rmtreeResidue⟩
          else
            copyPhase w [.mkdirParents, .rmtreeTarget]
        | none => copyPhase w [.mkdirParents]

/-- Line 341: the fixed import-check command run by verify_installation. -/
def importCheckCommand : List String :=
  ["python3", "-c", "import PyQt6, requests, watchdog"]

/-- Lines 324-349: verify_installation re-resolves the plugin directory,
requires the deployed entry-point file to exist at the target, then runs
the fixed import check.  The result pairs the returned boolean with the
subprocess command vectors invoked.  `target` is the current contents of
the plugin_target directory. -/
def verify_installation (w : World) (target : Option Tree) :
    Except PyError (Bool × List (List String)) :=
  match get_resolve_plugin_directory w with
  | .error e => .error e
  | .ok _ =>
    match target with
    | none => .ok (false, [])
    | some t =>
      if !treeHasEntry t then .ok (false, [])
      else .ok (w.importOk, [importCheckCommand])

/-- The pipeline stages of main, in program order. -/
inductive Stage where
  | platform
  | resolveApp
  | python
  | pip
  | deps
  | copy
  | verify
  deriving DecidableEq, Repr

/-- Result of one run of main: the process exit code, the stages that
were executed in order, the filesystem mutations performed, and the
final contents of the plugin target directory. -/
structure RunResult where
  exitCode : Nat
  executed : List Stage
  mutations : List Mutation
  finalTarget : Option Tree
  deriving DecidableEq, Repr

/-- Lines 367-407: main.  Each gate failing exits with code 1; a false
verify_installation is only a warning and exits with code 0, as does full
success.  An exception escaping copy_plugin_files or verify_installation
(possible on Windows with APPDATA/PROGRAMDATA unset) crashes the run. -/
def main (w : World) : Except PyError RunResult :=
  if !check_platform w.platform then
    .ok ⟨1, [.platform], [], w.priorTarget⟩
  else if !check_davinci_resolve w then
    .ok ⟨1, [.platform, .resolveApp], [], w.priorTarget⟩
  else if !check_python_installation w then
    .ok ⟨1, [.platform, .resolveApp, .python], [], w.priorTarget⟩
  else
    let pip := check_pip_installation w
    if !pip.1 then
      .ok ⟨1, [.platform, .resolveApp, .python, .pip], pip.2, w.priorTarget⟩
    else
      let inst := install_dependencies w
      let depMuts := pip.2 ++ inst.attempted.map Mutation.pipInstall
      if !inst.ok then
        .ok ⟨1, [.platform, .resolveApp, .python, .pip, .deps], depMuts,
             w.priorTarget⟩
      else
        let d := copy_plugin_files w
        match d.ret with
        | .error e => .error e
        | .ok false =>
          .ok ⟨1, [.platform, .resolveApp, .python, .pip, .deps, .copy],
               depMuts ++ d.mutations, d.target⟩
        | .ok true =>
          match verify_installation w d.target with
          | .error e => .error e
          | .ok (_, _) =>
            .ok ⟨0, [.platform, .resolveApp, .python, .pip, .deps, .copy,
                     .verify],
                 depMuts ++ d.mutations, d.target⟩

/-- A manifest state in which pyproject.toml is missing. -/
def missingManifest : ManifestState :=
  ⟨false, false, .raises⟩

/-- A concrete macOS world in which every probe succeeds and deployment
goes through cleanly; used as the base point of witnesses. -/
def baseWorld : World where
  platform := .darwin
  home := "/Users/u"
  appdata := none
  programdata := none
  existingPaths := ["/Applications/DaVinci Resolve/DaVinci Resolve.app"]
  python3Ok := true
  versionGe38 := true
  pipPresent := true
  ensurepipOk := true
  manifest := missingManifest
  pipInstallOk := fun _ => true
  sourceExists := true
  sourceTree := ⟨[("clipabit.py", "entry"), ("util.py", "helper")]⟩
  priorTarget := none
  mkdirRaises := false
  rmtreeRaises := false
  rmtreeResidue := none
  copyRaises := false
  copyResidue := none
  chmodRaises := false
  importOk := true

/-- A leftover tree from an earlier installation, with a file the current
source tree does not contain. -/
def oldTree : Tree :=
  ⟨[("clipabit.py", "stale entry"), ("legacy.cfg", "stale")]⟩

/-- C2: on every supported platform (macOS, or Windows with both path
environment variables set) and every filesystem state, the resolved
plugin directory is the user-scope path, except that the system-scope
path is returned when the user-scope path is absent and the system-scope
path exists; and a second call under the unchanged state returns the
same path. -/
theorem C2_resolve_target_directory_user_scope_preference (w : World) :
    (w.platform = .darwin →
      get_resolve_plugin_directory w =
        .ok (if !pathExists w (macUserPluginDir w.home)
                && pathExists w macSystemPluginDir
             then macSystemPluginDir else macUserPluginDir w.home)) ∧
    (∀ a p, w.platform = .windows → w.appdata = some a →
      w.programdata = some p →
      get_resolve_plugin_directory w =
        .ok (if !pathExists w (winUserPluginDir a)
                && pathExists w (winSystemPluginDir p)
             then winSystemPluginDir p else winUserPluginDir a)) ∧
    get_resolve_plugin_directory w = get_resolve_plugin_directory w := by
  refine ⟨?_, ?_, rfl⟩
  · intro h
    simp only [get_resolve_plugin_directory, h, choosePluginDir]
    cases hu : pathExists w (macUserPluginDir w.home) <;>
      cases hs : pathExists w macSystemPluginDir <;> simp
  · intro a p h ha hp
    simp only [get_resolve_plugin_directory, h, ha, hp, choosePluginDir]
    cases hu : pathExists w (winUserPluginDir a) <;>
      cases hs : pathExists w (winSystemPluginDir p) <;> simp

/-- C2 witness: in the base world the user directory is absent and so is
the system directory, so the user-scope path is returned. -/
theorem C2_resolve_target_directory_user_scope_preference_witness :
    get_resolve_plugin_directory baseWorld =
      .ok (if !pathExists baseWorld (macUserPluginDir baseWorld.home)
              && pathExists baseWorld macSystemPluginDir
           then macSystemPluginDir else macUserPluginDir baseWorld.home) :=
  (C2_resolve_target_directory_user_scope_preference baseWorld).1 rfl

/-- C4: the resolver returns the hardcoded three-entry fallback when the
manifest is missing, when the TOML parser is unavailable, or when parsing
raises; but a successfully parsed manifest with an empty dependency table
yields the empty list, not the fallback. -/
theorem C4_resolve_dependencies_fallback_vs_empty (m : ManifestState) :
    (m.fileExists = false →
      get_dependencies_from_pyproject m = fallbackDependencies) ∧
    (m.tomllibAvailable = false →
      get_dependencies_from_pyproject m = fallbackDependencies) ∧
    (m.parse = .raises →
      get_dependencies_from_pyproject m = fallbackDependencies) ∧
    (m.fileExists = true → m.tomllibAvailable = true → m.parse = .ok [] →
      get_dependencies_from_pyproject m = []) ∧
    fallbackDependencies =
      ["pyqt6>=6.10.0", "requests>=2.31.0", "watchdog>=3.0.0"] ∧
    fallbackDependencies.length = 3 := by
  refine ⟨?_, ?_, ?_, ?_, rfl, rfl⟩ <;>
    · intros
      simp_all [get_dependencies_from_pyproject]

/-- C4 witness: a missing manifest resolves to the fallback list. -/
theorem C4_resolve_dependencies_fallback_vs_empty_witness :
    get_dependencies_from_pyproject missingManifest = fallbackDependencies :=
  (C4_resolve_dependencies_fallback_vs_empty missingManifest).1 rfl

/-- C5: when the resolved list is [A, B], installing A succeeds and
installing B fails, the call returns failure, exactly A and B were
attempted (nothing beyond B), and A alone ends up installed with no
rollback. -/
theorem C5_install_dependencies_stops_after_first_failure (w : World)
    (A B : String)
    (hdeps : get_dependencies_from_pyproject w.manifest = [A, B])
    (hA : w.pipInstallOk A = true) (hB : w.pipInstallOk B = false) :
    install_dependencies w = ⟨false, [A, B], [A]⟩ := by
  simp [install_dependencies, hdeps, installLoop, hA, hB]

/-- C5 witness: with a manifest declaring ["good", "bad"] and pip failing
only on "bad", the run fails with "good" installed and both attempted. -/
theorem C5_install_dependencies_stops_after_first_failure_witness :
    install_dependencies
      { baseWorld with
        manifest := ⟨true, true, .ok ["good", "bad"]⟩
        pipInstallOk := fun d => d ≠ "bad" } = ⟨false, ["good", "bad"], ["good"]⟩ :=
  C5_install_dependencies_stops_after_first_failure _ "good" "bad" rfl rfl
    (by simp)

/-- C8: when the resolved dependency list is empty, install_dependencies
succeeds with an empty attempted list — no pip subprocess is invoked. -/
theorem C8_install_dependencies_empty_noop (w : World)
    (hdeps : get_dependencies_from_pyproject w.manifest = []) :
    install_dependencies w = ⟨true, [], []⟩ := by
  simp [install_dependencies, hdeps]

/-- C8 witness: a manifest that parses to an empty dependency table
resolves to the empty list, and installation is a successful no-op. -/
theorem C8_install_dependencies_empty_noop_witness :
    install_dependencies
      { baseWorld with manifest := ⟨true, true, .ok []⟩ } = ⟨true, [], []⟩ :=
  C8_install_dependencies_empty_noop _ rfl

/-- C9: the import check of verify_installation is insensitive to the
manifest state and to which pip installs succeeded; whenever it runs a
subprocess at all, that subprocess is exactly the fixed statement
importing PyQt6, requests and watchdog. -/
theorem C9_verify_import_command_fixed (w : World) (target : Option Tree)
    (m : ManifestState) (f : String → Bool) :
    verify_installation { w with manifest := m, pipInstallOk := f } target =
      verify_installation w target ∧
    (∀ b cmds, verify_installation w target = .ok (b, cmds) →
      cmds = [] ∨ cmds = [importCheckCommand]) ∧
    importCheckCommand = ["python3", "-c", "import PyQt6, requests, watchdog"] := by
  refine ⟨rfl, ?_, rfl⟩
  intro b cmds h
  unfold verify_installation at h
  cases hr : get_resolve_plugin_directory w with
  | error e => simp [hr] at h
  | ok dir =>
    rw [hr] at h
    cases target with
    | none => simp at h; simp [h.2]
    | some t =>
      by_cases he : treeHasEntry t = true <;> simp [he] at h <;>
        simp [h.2]

/-- C9 witness: in the base world with the source tree deployed, the
verifier runs exactly the fixed import command. -/
theorem C9_verify_import_command_fixed_witness :
    verify_installation baseWorld (some baseWorld.sourceTree) =
      .ok (true, [importCheckCommand]) ∧
    ([importCheckCommand] = [] ∨ [importCheckCommand] = [importCheckCommand]) :=
  ⟨rfl,
   (C9_verify_import_command_fixed baseWorld (some baseWorld.sourceTree)
      missingManifest (fun _ => true)).2.1 true [importCheckCommand] rfl⟩

/-- Helper for the deployment claims: whenever the copy phase returns
true, the target holds exactly the source tree. -/
theorem copyPhase_ret_true_target (w : World) (muts : List Mutation)
    (h : (copyPhase w muts).ret = .ok true) :
    (copyPhase w muts).target = some w.sourceTree := by
  cases hc : w.copyRaises <;> cases he : treeHasEntry w.sourceTree <;>
    cases hm : w.chmodRaises <;> simp_all [copyPhase]

/-- C3: whenever a prior installation exists at the plugin target and
copy_plugin_files returns true, the final contents of the target are
exactly the source tree — the prior installation is destructively
replaced, never merged. -/
theorem C3_deploy_replaces_prior_installation (w : World) (t : Tree)
    (hPrior : w.priorTarget = some t)
    (hOk : (copy_plugin_files w).ret = .ok true) :
    (copy_plugin_files w).target = some w.sourceTree := by
  unfold copy_plugin_files at hOk ⊢
  rw [hPrior] at hOk ⊢
  cases hs : w.sourceExists <;> simp_all
  cases hr : get_resolve_plugin_directory w <;> simp_all
  cases hm : w.mkdirRaises <;> simp_all
  cases hrm : w.rmtreeRaises <;> simp_all
  exact copyPhase_ret_true_target w _ hOk

/-- C3 witness: a clean run over a stale prior installation ends with the
target equal to the source tree. -/
theorem C3_deploy_replaces_prior_installation_witness :
    ({ baseWorld with priorTarget := some oldTree } : World).priorTarget =
      some oldTree ∧
    (copy_plugin_files { baseWorld with priorTarget := some oldTree }).ret =
      .ok true ∧
    (copy_plugin_files { baseWorld with priorTarget := some oldTree }).target =
      some ({ baseWorld with priorTarget := some oldTree } : World).sourceTree :=
  ⟨rfl, rfl,
   C3_deploy_replaces_prior_installation _ oldTree rfl rfl⟩

/-- A world in which everything succeeds except that os.chmod on the
deployed entry-point file raises. -/
def chmodFailWorld : World :=
  { baseWorld with chmodRaises := true, priorTarget := some oldTree }

/-- C6 counterexample: in chmodFailWorld the copy itself succeeded (the
target holds the source tree) and only the chmod failed, yet
copy_plugin_files returns false, not true: the chmod call sits inside the
same try block as the copy, so its exception is caught and converted to a
false return. -/
theorem C6_chmod_failure_counterexample :
    chmodFailWorld.chmodRaises = true ∧
    (copy_plugin_files chmodFailWorld).target =
      some chmodFailWorld.sourceTree ∧
    (copy_plugin_files chmodFailWorld).ret = .ok false ∧
    (copy_plugin_files chmodFailWorld).ret ≠ .ok true := by
  have hfalse : (copy_plugin_files chmodFailWorld).ret = .ok false := rfl
  exact ⟨rfl, rfl, hfalse, fun h => by simp [hfalse] at h⟩

/-- C6 amended: if setting the executable permission on the deployed
entry-point file raises after a successful copy, the exception is caught
by the surrounding handler and copy_plugin_files returns false, with the
copied files left in place at the target. -/
theorem C6_amended_chmod_failure_returns_false (w : World)
    (hSrc : w.sourceExists = true)
    (hRes : ∃ dir, get_resolve_plugin_directory w = .ok dir)
    (hMk : w.mkdirRaises = false)
    (hRm : w.rmtreeRaises = false)
    (hCopy : w.copyRaises = false)
    (hEntry : treeHasEntry w.sourceTree = true)
    (hChmod : w.chmodRaises = true) :
    (copy_plugin_files w).ret = .ok false ∧
    (copy_plugin_files w).target = some w.sourceTree := by
  obtain ⟨dir, hdir⟩ := hRes
  cases hp : w.priorTarget <;>
    simp_all [copy_plugin_files, copyPhase, hdir]

/-- C6 amended witness: the counterexample world satisfies the amended
statement. -/
theorem C6_amended_chmod_failure_returns_false_witness :
    (copy_plugin_files chmodFailWorld).ret = .ok false ∧
    (copy_plugin_files chmodFailWorld).target =
      some chmodFailWorld.sourceTree :=
  C6_amended_chmod_failure_returns_false chmodFailWorld rfl
    ⟨macUserPluginDir chmodFailWorld.home, rfl⟩ rfl rfl rfl rfl rfl

/-- A world running on an unsupported operating system. -/
def linuxWorld : World :=
  { baseWorld with platform := .other "Linux" }

/-- C7: on an unsupported OS identity check_platform is false and main
exits with code 1 having executed only the platform gate — no mutation
was performed and the plugin target directory is untouched. -/
theorem C7_unsupported_platform_halts_before_mutation (w : World)
    (name : String) (h : w.platform = .other name) :
    check_platform w.platform = false ∧
    main w = .ok ⟨1, [.platform], [], w.priorTarget⟩ := by
  constructor
  · rw [h]; rfl
  · simp [main, h, check_platform]

/-- C7 witness: the Linux world aborts immediately with exit code 1. -/
theorem C7_unsupported_platform_halts_before_mutation_witness :
    check_platform linuxWorld.platform = false ∧
    main linuxWorld = .ok ⟨1, [.platform], [], linuxWorld.priorTarget⟩ :=
  C7_unsupported_platform_halts_before_mutation linuxWorld "Linux" rfl

/-- A Windows world in which neither APPDATA nor PROGRAMDATA is set. -/
def winNoEnvWorld : World :=
  { baseWorld with platform := .windows }

/-- C10: on Windows with APPDATA or PROGRAMDATA unset, the directory
resolution raises TypeError (Path of None), and since copy_plugin_files
calls it outside all of its exception handlers, the exception propagates:
the deployment neither returns false nor completes. -/
theorem C10_windows_missing_env_uncaught_exception (w : World)
    (hwin : w.platform = .windows)
    (henv : w.appdata = none ∨ w.programdata = none) :
    get_resolve_plugin_directory w = .error .typeError ∧
    (w.sourceExists = true →
      (copy_plugin_files w).ret = .error .typeError) := by
  have hres : get_resolve_plugin_directory w = .error .typeError := by
    rcases henv with h | h <;>
      · unfold get_resolve_plugin_directory
        rw [hwin]
        cases ha : w.appdata <;> cases hp : w.programdata <;> simp_all
  refine ⟨hres, fun hs => ?_⟩
  simp [copy_plugin_files, hs, hres]

/-- C10 witness: the Windows world without environment variables crashes
the deployment with an uncaught TypeError. -/
theorem C10_windows_missing_env_uncaught_exception_witness :
    get_resolve_plugin_directory winNoEnvWorld = .error .typeError ∧
    (copy_plugin_files winNoEnvWorld).ret = .error .typeError := by
  have h :=
    C10_windows_missing_env_uncaught_exception winNoEnvWorld rfl (Or.inl rfl)
  exact ⟨h.1, h.2 rfl⟩

/-- C1: each of the six fatal gates, when it is the first to return
false, terminates main with exit code 1 and no later stage executed;
when all six succeed and only verify_installation returns false, main
terminates with exit code 0. -/
theorem C1_gate_failure_exit_codes (w : World) :
    (check_platform w.platform = false →
      main w = .ok ⟨1, [.platform], [], w.priorTarget⟩) ∧
    (check_platform w.platform = true → check_davinci_resolve w = false →
      main w = .ok ⟨1, [.platform, .resolveApp], [], w.priorTarget⟩) ∧
    (check_platform w.platform = true → check_davinci_resolve w = true →
      check_python_installation w = false →
      main w = .ok ⟨1, [.platform, .resolveApp, .python], [],
                    w.priorTarget⟩) ∧
    (check_platform w.platform = true → check_davinci_resolve w = true →
      check_python_installation w = true →
      (check_pip_installation w).1 = false →
      main w = .ok ⟨1, [.platform, .resolveApp, .python, .pip],
                    (check_pip_installation w).2, w.priorTarget⟩) ∧
    (check_platform w.platform = true → check_davinci_resolve w = true →
      check_python_installation w = true →
      (check_pip_installation w).1 = true →
      (install_dependencies w).ok = false →
      main w = .ok ⟨1, [.platform, .resolveApp, .python, .pip, .deps],
                    (check_pip_installation w).2 ++
                      (install_dependencies w).attempted.map
                        Mutation.pipInstall,
                    w.priorTarget⟩) ∧
    (check_platform w.platform = true → check_davinci_resolve w = true →
      check_python_installation w = true →
      (check_pip_installation w).1 = true →
      (install_dependencies w).ok = true →
      (copy_plugin_files w).ret = .ok false →
      main w = .ok ⟨1, [.platform, .resolveApp, .python, .pip, .deps,
                        .copy],
                    ((check_pip_installation w).2 ++
                      (install_dependencies w).attempted.map
                        Mutation.pipInstall) ++
                      (copy_plugin_files w).mutations,
                    (copy_plugin_files w).target⟩) ∧
    (check_platform w.platform = true → check_davinci_resolve w = true →
      check_python_installation w = true →
      (check_pip_installation w).1 = true →
      (install_dependencies w).ok = true →
      (copy_plugin_files w).ret = .ok true →
      ∀ cmds,
        verify_installation w (copy_plugin_files w).target =
          .ok (false, cmds) →
        main w = .ok ⟨0, [.platform, .resolveApp, .python, .pip, .deps,
                          .copy, .verify],
                      ((check_pip_installation w).2 ++
                        (install_dependencies w).attempted.map
                          Mutation.pipInstall) ++
                        (copy_plugin_files w).mutations,
                      (copy_plugin_files w).target⟩) := by
  refine ⟨?_, ?_, ?_, ?_, ?_, ?_, ?_⟩ <;> intros <;> simp_all [main]

/-- A world whose full pipeline succeeds except the final import check:
the completed-with-warnings path of main. -/
def warnWorld : World :=
  { baseWorld with importOk := false }

/-- C1 witness: in warnWorld every fatal gate passes, only the final
verifier returns false, and main exits with code 0 having executed all
stages. -/
theorem C1_gate_failure_exit_codes_witness :
    check_platform warnWorld.platform = true ∧
    check_davinci_resolve warnWorld = true ∧
    check_python_installation warnWorld = true ∧
    (check_pip_installation warnWorld).1 = true ∧
    (install_dependencies warnWorld).ok = true ∧
    (copy_plugin_files warnWorld).ret = .ok true ∧
    verify_installation warnWorld (copy_plugin_files warnWorld).target =
      .ok (false, [importCheckCommand]) ∧
    main warnWorld = .ok ⟨0, [.platform, .resolveApp, .python, .pip, .deps,
                              .copy, .verify],
                          ((check_pip_installation warnWorld).2 ++
                            (install_dependencies warnWorld).attempted.map
                              Mutation.pipInstall) ++
                            (copy_plugin_files warnWorld).mutations,
                          (copy_plugin_files warnWorld).target⟩ :=
  ⟨rfl, rfl, rfl, rfl, rfl, rfl, rfl,
   (C1_gate_failure_exit_codes warnWorld).2.2.2.2.2.2 rfl rfl rfl rfl rfl
     rfl [importCheckCommand] rfl⟩

end Installer
